import Mathlib

/-!
Verification development for the AI-NEWS-BOTS repository.

Shallow embedding of the per-bot content pipeline and tweet-suggestion
workflow: the X publishing endpoint (`src/utils/x_poster.py`), the news
bot's approval protocol and fetch cycle (`src/bots/news_bot.py`), the RSS
fetcher (`src/sources/rss_fetcher.py`), the fallback draft generators
(`src/utils/text_generator.py`), and the base bot lifecycle
(`src/bots/base_bot.py`).

Machine-level conventions: Python strings are Lean `String` (both count
code points, so `len` agrees with `String.length`); Python `None`-able
values are `Option`; network calls are explicit function parameters;
functions that can raise return `Except`.
-/

/-! ## Generic string helpers (Python semantics)

These are defined over the character list of the string so that every
definition evaluates by kernel reduction. Case folding is modelled for
ASCII letters (Python `str.lower` additionally folds non-ASCII case,
which none of the claim-relevant keyword tables contain). -/

set_option maxRecDepth 40000

/-- Python slicing `s[:n]`. -/
def strTake (s : String) (n : Nat) : String :=
  String.mk (s.toList.take n)

/-- Python `s.strip()`: remove leading and trailing whitespace. -/
def py_strip (s : String) : String :=
  String.mk
    (((s.toList.dropWhile Char.isWhitespace).reverse.dropWhile
        Char.isWhitespace).reverse)

/-- Python `s.lower()` (ASCII case folding). -/
def py_lower (s : String) : String :=
  String.mk (s.toList.map Char.toLower)

/-- Helper for substring search: does `needle` occur inside the list? -/
def list_contains_sub (needle : List Char) : List Char → Bool
  | [] => needle.isEmpty
  | c :: rest => needle.isPrefixOf (c :: rest) || list_contains_sub needle rest

/-- Python `needle in hay` substring test. -/
def strContains (hay needle : String) : Bool :=
  list_contains_sub needle.toList hay.toList

/-- Fueled worker for `py_replace`; `fuel` starts at the haystack length,
which suffices for any nonempty pattern. -/
def replaceAux (pat repl : List Char) : Nat → List Char → List Char
  | _, [] => []
  | 0, s => s
  | fuel + 1, c :: s =>
    if pat.isPrefixOf (c :: s) then
      repl ++ replaceAux pat repl fuel ((c :: s).drop pat.length)
    else
      c :: replaceAux pat repl fuel s

/-- Python `s.replace(pat, repl)` (replace every occurrence, left to right,
without rescanning the replacement). -/
def py_replace (s pat repl : String) : String :=
  String.mk (replaceAux pat.toList repl.toList s.toList.length s.toList)

/-- Worker for `py_split`: `cur` is the current word, reversed. -/
def split_ws_aux : List Char → List Char → List (List Char)
  | cur, [] => if cur.isEmpty then [] else [cur.reverse]
  | cur, c :: rest =>
    if c.isWhitespace then
      if cur.isEmpty then split_ws_aux [] rest
      else cur.reverse :: split_ws_aux [] rest
    else split_ws_aux (c :: cur) rest

/-- Python `s.split()`: split on whitespace runs, dropping empty pieces. -/
def py_split (s : String) : List String :=
  (split_ws_aux [] s.toList).map String.mk

/-- Python `dict.fromkeys` de-duplication: keep the first occurrence of
each element, preserving order. `seen` accumulates the kept elements. -/
def dedup_first_aux (seen : List String) : List String → List String
  | [] => []
  | x :: xs =>
    if seen.contains x then dedup_first_aux seen xs
    else x :: dedup_first_aux (x :: seen) xs

/-! ## `src/utils/x_poster.py` — XPoster -/

/-- Python truthiness of an optional credential string: `None` and the
empty string are falsy. -/
def truthy : Option String → Bool
  | none => false
  | some s => s != ""

/-- XPoster credentials, as stored by `XPoster.__init__`
(`src/utils/x_poster.py` lines 29–33). -/
structure XPoster where
  bearer_token : Option String
  api_key : Option String
  api_secret : Option String
  access_token : Option String
  access_token_secret : Option String
deriving DecidableEq, Repr

/-- The credential check used at `src/utils/x_poster.py` line 60:
`self.bearer_token or (api_key and api_secret and access_token and
access_token_secret)`. -/
def XPoster.has_credentials (p : XPoster) : Bool :=
  truthy p.bearer_token ||
    (truthy p.api_key && truthy p.api_secret &&
      truthy p.access_token && truthy p.access_token_secret)

/-- Result of `XPoster.post_tweet`: the returned boolean, plus whether a
network request was actually issued (`attempted = false` on the input
guard and on the simulated path). -/
structure PostResult where
  success : Bool
  attempted : Bool
deriving DecidableEq, Repr

/-- `XPoster.post_tweet` (`src/utils/x_poster.py` lines 48–115).
The network is the parameter `net`: `net text = some status` models the
HTTP response status of `requests.post`, `net text = none` models a raised
exception (caught at line 113, returning `False`). Steps, in source order:
reject empty or over-280 text; with no credentials, log a simulated post
and return `True`; otherwise post and return `status == 201`. -/
def XPoster.post_tweet (p : XPoster) (net : String → Option Nat)
    (text : String) : PostResult :=
  if text = "" ∨ 280 < text.length then ⟨false, false⟩
  else if !p.has_credentials then ⟨true, false⟩
  else
    match net text with
    | some status => ⟨status == 201, true⟩
    | none => ⟨false, true⟩

/-! ## `src/bots/news_bot.py` — approval protocol and fetch cycle -/

/-- The article dictionary built by `RSSFetcher._fetch_from_source`
(`src/sources/rss_fetcher.py` lines 130–138), restricted to the fields
the claims depend on. The `summary`/`content`/`published` text fields are
carried along unchanged by deduplication, sorting, capping and the news
cycle, so they are omitted here. `published_parsed` is `none` when the
feed entry carried no parsed date (the key itself is always present in
the dictionary). Parsed times are modelled as naturals. -/
structure Article where
  title : String
  link : String
  published_parsed : Option Nat
  source : String
deriving DecidableEq, Repr

/-- One entry of `self.pending_tweets` (`src/bots/news_bot.py`
lines 312–317): the draft texts and the source article. -/
structure PendingData where
  tweets : List String
  article : Article
deriving DecidableEq, Repr

/-- The possible owner-facing replies of `NewsBot.button_callback`
(`src/bots/news_bot.py` lines 178–228), one constructor per
`edit_message_text` call site. -/
inductive CallbackResponse where
  | expired
  | skipped
  | posted (text : String)
  | simulated (text : String)
  | invalidSelection
  | invalidAction
  | unknownAction
deriving DecidableEq, Repr

/-- The literal message text behind each `CallbackResponse`, from the
string literals of `NewsBot.button_callback`. -/
def render_message : CallbackResponse → String
  | .expired => "❌ Tweet data expired. Please request new tweets."
  | .skipped => "⏭️ **Skipped this article.**"
  | .posted t => "✅ **Tweet posted successfully!**\n\n📱 Tweet: " ++ t
  | .simulated t => "✅ **Tweet simulated (no X token provided)**\n\n📱 Tweet: " ++ t
  | .invalidSelection => "❌ Invalid tweet selection."
  | .invalidAction => "❌ Invalid selection."
  | .unknownAction => "❌ Unknown action."

/-- `NewsBot.button_callback` (`src/bots/news_bot.py` lines 178–228) for
the bot owner. Input: the pending-tweets entry for the user (or `none`)
and the callback `data` string. Output: the reply, the updated pending
entry, and whether `post_tweet` was invoked. Control flow, in source
order: no entry → "Tweet data expired"; `data == "skip"` → skipped and
entry deleted; `data.startswith("t")` → `int(data[1]) - 1` is the index
(`int` of a non-digit raises `ValueError`, a missing `data[1]` raises
`IndexError`, both caught → "Invalid selection."); an in-range index
posts the draft and deletes the entry, an out-of-range index replies
"Invalid tweet selection." keeping the entry; any other data →
"Unknown action.". ASCII digits are modelled for `int(data[1])`. -/
def button_callback (poster : XPoster) (net : String → Option Nat)
    (pending : Option PendingData) (data : String) :
    CallbackResponse × Option PendingData × Bool :=
  match pending with
  | none => (.expired, none, false)
  | some pd =>
    if data = "skip" then (.skipped, none, false)
    else
      match data.toList with
      | c0 :: rest =>
        if c0 = 't' then
          match rest with
          | c :: _ =>
            if c.isDigit then
              let k : Int := (c.toNat - 48 : Int) - 1
              if 0 ≤ k ∧ k < pd.tweets.length then
                let text := pd.tweets.getD k.toNat ""
                let r := poster.post_tweet net text
                if r.success then (.posted text, none, true)
                else (.simulated text, none, true)
              else (.invalidSelection, some pd, false)
            else (.invalidAction, some pd, false)
          | [] => (.invalidAction, some pd, false)
        else (.unknownAction, some pd, false)
      | [] => (.unknownAction, some pd, false)

/-- `NewsBot._send_tweet_suggestions` effect on `self.pending_tweets`
(`src/bots/news_bot.py` lines 312–317): the owner's entry is
unconditionally overwritten with the new draft set. -/
def send_tweet_suggestions (pending : Option PendingData)
    (article : Article) (tweets : List String) : Option PendingData :=
  let _ := pending
  some { tweets := tweets, article := article }

/-- The four result strings of `NewsBot.fetch_and_send_news`. -/
inductive FetchStatus where
  | no_articles
  | no_new_articles
  | success
  | error
deriving DecidableEq, Repr

/-- State and output of one fetch-transform-dispatch cycle: the result
status, the updated `self.sent_articles` ledger, and the
(article, drafts) pairs actually dispatched to the owner. -/
structure CycleResult where
  status : FetchStatus
  sent_articles : List String
  dispatched : List (Article × List String)
deriving DecidableEq, Repr

/-- `NewsBot.fetch_and_send_news` (`src/bots/news_bot.py` lines 230–271).
`fetchResult` is the outcome of `rss_fetcher.fetch_latest_articles`
(`.error` when it raised — caught by the outer `try`, returning
`"error"`). `gen` models `text_generator.generate_tweets`; an article
whose generation yields no tweets is not dispatched
(`_process_article` returns early) but is still marked sent.
`_process_article` catches all its own exceptions, so every article of
the batch is added to `sent_articles` and counted as processed; the
batch is the first 3 not-yet-sent articles, and since it is nonempty the
result is `"success"`. -/
def fetch_and_send_news (gen : Article → List String)
    (fetchResult : Except Unit (List Article)) (sent : List String) :
    CycleResult :=
  match fetchResult with
  | .error _ => ⟨.error, sent, []⟩
  | .ok articles =>
    if articles.isEmpty then ⟨.no_articles, sent, []⟩
    else
      let new_articles := articles.filter (fun a => !sent.contains a.link)
      if new_articles.isEmpty then ⟨.no_new_articles, sent, []⟩
      else
        let batch := new_articles.take 3
        ⟨.success, sent ++ batch.map (fun a => a.link),
          (batch.map (fun a => (a, gen a))).filter (fun p => !p.2.isEmpty)⟩

/-- The user feedback texts of `NewsBot.latest_command`
(`src/bots/news_bot.py` lines 116–127), one per cycle result. -/
def latest_feedback : FetchStatus → String
  | .no_articles => "📭 No new articles found in the RSS feeds. This might be because:\n\n• All recent articles have already been processed\n• RSS feeds haven\x27t updated recently\n• There might be connectivity issues\n\nTry again later or check your RSS sources."
  | .no_new_articles => "✅ All recent articles have already been processed. No new content to review.\n\nThe bot is working correctly - just no new articles since the last check."
  | .success => "✅ Latest news fetched successfully! Check the messages above for tweet suggestions."
  | .error => "❌ Error occurred while fetching news. Please try again later or check the bot logs."

/-- `NewsBot.latest_command` (`src/bots/news_bot.py` lines 110–127): it
unconditionally runs `fetch_and_send_news` and edits the status message
with the feedback for the result. The handler consults no other state. -/
def latest_command (gen : Article → List String)
    (fetchResult : Except Unit (List Article)) (sent : List String) :
    String × CycleResult :=
  let r := fetch_and_send_news gen fetchResult sent
  (latest_feedback r.status, r)

/-! ## `src/sources/rss_fetcher.py` — RSSFetcher -/

/-- Exceptions `requests.get` can raise, split by whether the retry loop
at `src/sources/rss_fetcher.py` lines 97–109 catches them
(`requests.Timeout`, `requests.ConnectionError`) or not (e.g. the
`HTTPError` from `raise_for_status`). -/
inductive NetError where
  | timeout
  | connectionError
  | httpError
deriving DecidableEq, Repr

/-- Whether the retry loop catches this error and retries. -/
def NetError.retryable : NetError → Bool
  | .timeout => true
  | .connectionError => true
  | .httpError => false

/-- One feed entry as seen by `_fetch_from_source`
(`src/sources/rss_fetcher.py` lines 118–160): title, link and the two
optional parsed timestamps. -/
structure Entry where
  title : String
  link : String
  published_parsed : Option Nat
  updated_parsed : Option Nat
deriving DecidableEq, Repr

/-- The article built from one entry (`src/sources/rss_fetcher.py`
lines 130–138 and the title guard at line 159): `none` when the stripped
title is empty. The full-content enrichment of lines 139–156 only fills
the `content` text field and is omitted (see `Article`). -/
def entry_to_article (src : String) (e : Entry) : Option Article :=
  if py_strip e.title = "" then none
  else some { title := py_strip e.title, link := e.link,
              published_parsed := e.published_parsed, source := src }

/-- The entry loop of `_fetch_from_source` (`src/sources/rss_fetcher.py`
lines 118–160): the publication time is `published_parsed`, else
`updated_parsed`; entries with a known time older than the cutoff are
skipped; entries with an empty title are skipped. -/
def process_entries (cutoff : Nat) (src : String) (entries : List Entry) :
    List Article :=
  entries.filterMap (fun e =>
    match e.published_parsed.orElse (fun _ => e.updated_parsed) with
    | some t => if t < cutoff then none else entry_to_article src e
    | none => entry_to_article src e)

/-- `RSSFetcher._fetch_from_source` (`src/sources/rss_fetcher.py`
lines 93–167). `net src attempt` is the outcome of the `requests.get`
call on the given attempt. The retry loop (`max_retries = 2`) retries
only `Timeout`/`ConnectionError` after a 1-second pause; the re-raise on
the last attempt and every other exception are caught by the enclosing
`try`, which returns `[]`. Returns the articles plus the number of
attempts made. -/
def fetch_from_source (cutoff : Nat)
    (net : String → Nat → Except NetError (List Entry)) (src : String) :
    List Article × Nat :=
  match net src 0 with
  | .ok entries => (process_entries cutoff src entries, 1)
  | .error e =>
    if e.retryable then
      match net src 1 with
      | .ok entries => (process_entries cutoff src entries, 2)
      | .error _ => ([], 2)
    else ([], 1)

/-- Worker for `RSSFetcher._deduplicate_articles`
(`src/sources/rss_fetcher.py` lines 184–197): keep an article when its
lowercased, stripped title is nonempty and not yet in `seen`. -/
def deduplicate_articles_aux (seen : List String) :
    List Article → List Article
  | [] => []
  | a :: rest =>
    let title := py_strip (py_lower a.title)
    if title != "" && !seen.contains title then
      a :: deduplicate_articles_aux (title :: seen) rest
    else
      deduplicate_articles_aux seen rest

/-- `RSSFetcher._deduplicate_articles`. -/
def deduplicate_articles (articles : List Article) : List Article :=
  deduplicate_articles_aux [] articles

/-- The sort key of `fetch_latest_articles` line 81, in the case where
the stored parsed time exists. (The `datetime.min.timetuple()` default of
`dict.get` is dead code: `_fetch_from_source` always stores the
`published_parsed` key, possibly with value `None`.) -/
def sort_key (a : Article) : Nat :=
  a.published_parsed.getD 0

/-- Descending comparison by parsed publication time (`reverse=True`). -/
def newer (a b : Article) : Prop :=
  sort_key b ≤ sort_key a

instance : DecidableRel newer := fun _ _ => Nat.decLe _ _

instance : IsTotal Article newer :=
  ⟨fun a b => (Nat.le_total (sort_key b) (sort_key a)).symm.symm⟩

instance : IsTrans Article newer :=
  ⟨fun _ _ _ h1 h2 => Nat.le_trans h2 h1⟩

/-- Python `sorted(articles, key=..., reverse=True)` at
`src/sources/rss_fetcher.py` lines 79–83. The key of every article is
its stored `published_parsed` value, which can be `None`; with two or
more elements Python's sort compares every element against a neighbour,
and any comparison involving `None` raises `TypeError`. With zero or one
element no comparison happens; with all keys present the list is sorted
by time, newest first. -/
def py_sorted_desc (l : List Article) : Except String (List Article) :=
  if l.length ≤ 1 then .ok l
  else if l.any (fun a => a.published_parsed.isNone) then .error "TypeError"
  else .ok (List.insertionSort newer l)

/-- `RSSFetcher.fetch_latest_articles` (`src/sources/rss_fetcher.py`
lines 57–91): fetch each source in order (a per-source failure is caught
inside `fetch_from_source` and contributes `[]`), concatenate,
de-duplicate by title, sort newest first, and return the top 10. -/
def fetch_latest_articles (cutoff : Nat)
    (net : String → Nat → Except NetError (List Entry))
    (sources : List String) : Except String (List Article) :=
  let all_articles := (sources.map (fun s => (fetch_from_source cutoff net s).1)).flatten
  let unique := deduplicate_articles all_articles
  (py_sorted_desc unique).map (fun l => l.take 10)

/-! ## `src/utils/text_generator.py` — fallback draft generators -/

/-- `TextGenerator._generate_hashtags` (`src/utils/text_generator.py`
lines 252–285): keyword-triggered hashtag selection, general fallback,
capped at 3. -/
def generate_hashtags (headline : String) : List String :=
  let hl := py_lower headline
  let tags :=
    (if ["ai", "artificial intelligence", "machine learning", "ml"].any
        (fun w => strContains hl w) then ["#AI", "#MachineLearning"] else []) ++
    (if ["crypto", "bitcoin", "blockchain", "ethereum"].any
        (fun w => strContains hl w) then ["#Crypto", "#Blockchain"] else []) ++
    (if ["tech", "technology", "innovation", "startup"].any
        (fun w => strContains hl w) then ["#Tech", "#Innovation"] else []) ++
    (if ["breaking", "urgent", "alert"].any
        (fun w => strContains hl w) then ["#Breaking"] else []) ++
    (if ["new", "latest", "update"].any
        (fun w => strContains hl w) then ["#News"] else []) ++
    (if ["google", "microsoft", "apple", "meta", "openai"].any
        (fun w => strContains hl w) then ["#BigTech"] else []) ++
    (if ["research", "study", "breakthrough"].any
        (fun w => strContains hl w) then ["#Research"] else [])
  let tags := if tags.isEmpty then ["#Tech", "#News"] else tags
  tags.take 3

/-- The dictionary returned by `TextGenerator._extract_key_points`. -/
structure KeyPoints where
  main_point : String
  details : String
deriving DecidableEq, Repr

/-- `TextGenerator._extract_key_points` (`src/utils/text_generator.py`
lines 308–344). -/
def extract_key_points (headline : String) : KeyPoints :=
  let hl := py_lower headline
  if strContains hl "announces" || strContains hl "launches" then
    ⟨"Major announcement in tech space",
     "New product/service could reshape the industry landscape."⟩
  else if strContains hl "breakthrough" || strContains hl "discovers" then
    ⟨"Scientific breakthrough reported",
     "This discovery could lead to significant technological advances."⟩
  else if strContains hl "raises" &&
      (strContains hl "funding" || strContains hl "million") then
    ⟨"Startup funding news",
     "Fresh capital injection signals investor confidence in this sector."⟩
  else if strContains hl "ai" || strContains hl "artificial intelligence" then
    ⟨"AI development update",
     "Another step forward in artificial intelligence capabilities."⟩
  else if strContains hl "crypto" || strContains hl "bitcoin" then
    ⟨"Cryptocurrency market movement",
     "Digital asset space continues to evolve with new developments."⟩
  else
    let words := py_split headline
    if 6 < words.length then
      ⟨String.intercalate " " (words.take 6) ++ "...",
       "Industry experts are watching this development closely."⟩
    else
      ⟨strTake headline 50 ++ "...",
       "This could have broader implications for the tech sector."⟩

/-- `TextGenerator._generate_impact_analysis`
(`src/utils/text_generator.py` lines 346–363). -/
def generate_impact_analysis (headline : String) : String :=
  let hl := py_lower headline
  if strContains hl "ai" then
    "AI advances like this could transform how we work and interact with technology."
  else if strContains hl "crypto" then
    "Crypto developments often signal shifts in the broader financial landscape."
  else if strContains hl "funding" then
    "Venture funding rounds reveal where smart money sees future opportunities."
  else if strContains hl "breakthrough" then
    "Scientific breakthroughs today become tomorrow\x27s game-changing products."
  else if strContains hl "launch" then
    "Product launches in tech often set trends for entire industries."
  else if strContains hl "acquisition" || strContains hl "merger" then
    "M&A activity reshapes competitive landscapes and market dynamics."
  else
    "Developments like this often have ripple effects across the tech ecosystem."

/-- `TextGenerator._generate_discussion_question`
(`src/utils/text_generator.py` lines 365–382). -/
def generate_discussion_question (headline : String) : String :=
  let hl := py_lower headline
  if strContains hl "ai" then
    "How will AI developments like this change your daily workflow?"
  else if strContains hl "privacy" || strContains hl "data" then
    "What does this mean for digital privacy and user rights?"
  else if strContains hl "crypto" then
    "Is this bullish or bearish for the crypto space long-term?"
  else if strContains hl "startup" || strContains hl "funding" then
    "Which sector do you think will attract the most VC money next?"
  else if strContains hl "regulation" then
    "Will regulation help or hurt innovation in this space?"
  else if strContains hl "breakthrough" then
    "When do you think we\x27ll see this technology in consumer products?"
  else
    "How do you think this will impact the industry?"

/-- The conditional link append used for each template
(`src/utils/text_generator.py` lines 165–166, 175–176, 186–187):
the link is added only when the tweet is still ≤ 250 characters and a
link exists. -/
def add_link (t link : String) : String :=
  if t.length ≤ 250 && link != "" then t ++ "\n\n" ++ link else t

/-- The per-template length gate (`if len(tweet) <= 280:
tweets.append(tweet)`): over-280 output is discarded. -/
def gate280 (s : String) : List String :=
  if s.length ≤ 280 then [s] else []

/-- `TextGenerator._generate_fallback_tweets`
(`src/utils/text_generator.py` lines 143–197). `_extract_key_points`
always returns a non-empty dict, so the `else` template at line 162 is
dead code. The body raises no exception, so the `except` branch
returning `[]` is dead as well. -/
def generate_fallback_tweets (headline link : String) : List String :=
  let clean := py_strip headline
  let hashtag_string := String.intercalate " " (generate_hashtags clean)
  let kp := extract_key_points clean
  let t1 := "🔥 " ++ kp.main_point ++ "\n\n" ++ kp.details ++
    "\n\nThis could reshape how the industry approaches innovation.\n\n" ++
    hashtag_string
  let t1 := add_link t1 link
  let t2 := "💡 " ++ generate_impact_analysis clean ++
    "\n\nKey takeaway from: " ++ strTake clean 80 ++ "...\n\n" ++
    hashtag_string
  let t2 := add_link t2 link
  let t3 := "🤔 " ++ generate_discussion_question clean ++
    "\n\nTriggered by: " ++ strTake clean 70 ++
    "...\n\nWhat\x27s your take? 👇\n\n" ++ hashtag_string
  let t3 := add_link t3 link
  gate280 t1 ++ gate280 t2 ++ gate280 t3

/-- The newsletter context dictionary consumed by
`_generate_newsletter_fallback`; `articles` is the list of article
titles (the source only reads `articles[0].get('title', '')` and
`len(articles)`). -/
structure NewsletterContext where
  subject : String
  articles : List String
  categories : List String
  niche : String
deriving DecidableEq, Repr

/-- The `hashtag_map` dictionary of `TextGenerator._get_niche_hashtags`
(`src/utils/text_generator.py` lines 543–549). -/
def hashtag_map (k : String) : Option (List String) :=
  if k = "tech" then some ["#TechNews", "#Innovation", "#Technology"]
  else if k = "ai" then some ["#AI", "#MachineLearning", "#ArtificialIntelligence"]
  else if k = "crypto" then some ["#Crypto", "#Bitcoin", "#Blockchain"]
  else if k = "business" then some ["#Business", "#Startup", "#Entrepreneurship"]
  else if k = "general" then some ["#News", "#Update", "#Trending"]
  else none

/-- `TextGenerator._get_niche_hashtags` (`src/utils/text_generator.py`
lines 541–562). -/
def get_niche_hashtags (niche : String) (categories : List String) :
    List String :=
  let base := (hashtag_map (py_lower niche)).getD ["#News", "#Update", "#Trending"]
  let category_hashtags :=
    (categories.map (fun c => ((hashtag_map (py_lower c)).getD []).take 1)).flatten
  dedup_first_aux [] (base ++ category_hashtags)

/-- The filled template of `TextGenerator._generate_newsletter_fallback`
(`src/utils/text_generator.py` lines 498–534), before the final length
clamp. -/
def newsletter_template_fill (ctx : NewsletterContext) : String :=
  let hashtags := get_niche_hashtags ctx.niche ctx.categories
  match ctx.articles with
  | top :: rest =>
    let top := if 60 < top.length then strTake top 60 ++ "..." else top
    let t := "📧 Newsletter highlights: " ++ top
    let t := if rest.isEmpty then t
      else t ++ " + " ++ toString rest.length ++ " more insights"
    t ++ "\n\n" ++ String.intercalate " " (hashtags.take 3)
  | [] =>
    if ctx.subject != "" then
      let clean := py_strip (py_replace (py_replace ctx.subject "Re:" "") "Fwd:" "")
      let clean := if 100 < clean.length then strTake clean 100 ++ "..." else clean
      "📰 Weekly roundup: " ++ clean ++ "\n\n" ++
        String.intercalate " " (hashtags.take 3)
    else
      "📧 Interesting newsletter insights in " ++ ctx.niche ++ "\n\n" ++
        String.intercalate " " (hashtags.take 3)

/-- `TextGenerator._generate_newsletter_fallback`
(`src/utils/text_generator.py` line 535): over-280 output is returned
truncated to 277 characters plus `"..."`, not discarded. -/
def generate_newsletter_fallback (ctx : NewsletterContext) : String :=
  let tweet := newsletter_template_fill ctx
  if tweet.length ≤ 280 then tweet else strTake tweet 277 ++ "..."

/-! ## `src/bots/base_bot.py` — BaseBot lifecycle -/

/-- The lifecycle-relevant state of a `BaseBot`: the `running` flag and
whether `self.application.updater` is set. -/
structure StopState where
  running : Bool
  hasUpdater : Bool
deriving DecidableEq, Repr

/-- The external teardown calls `BaseBot.stop` issues, in order. -/
inductive StopEffect where
  | updaterStop
  | applicationStop
  | applicationShutdown
deriving DecidableEq, Repr

/-- `BaseBot.stop` (`src/bots/base_bot.py` lines 73–81): set
`self.running = False`, then unconditionally run the teardown sequence
(`updater.stop()` if an updater exists, `application.stop()`,
`application.shutdown()`). There is no guard on `self.running`. Returns
the new state and the trace of teardown calls issued. -/
def BaseBot_stop (st : StopState) : StopState × List StopEffect :=
  ({ st with running := false },
    (if st.hasUpdater then [StopEffect.updaterStop] else []) ++
      [StopEffect.applicationStop, StopEffect.applicationShutdown])

/-! ## Concrete fixtures used by witnesses and counterexamples -/

/-- An XPoster with no credentials configured (simulated mode). -/
def poster_none : XPoster := ⟨none, none, none, none, none⟩

/-- An XPoster with full credentials configured. -/
def poster_full : XPoster :=
  ⟨some "bearer", some "key", some "secret", some "atoken", some "asecret"⟩

/-- A network that always raises on `requests.post`. -/
def netDead : String → Option Nat := fun _ => none

/-- A network whose `requests.post` always answers HTTP 201. -/
def net201 : String → Option Nat := fun _ => some 201

/-- A network whose `requests.post` always answers HTTP 500. -/
def net500 : String → Option Nat := fun _ => some 500

/-- A sample fetched article. -/
def artHello : Article := ⟨"Hello world", "https://example.com/1", some 5, "feed"⟩

/-- Article behind a first draft offer. -/
def artA : Article := ⟨"First article", "https://example.com/a", some 1, "feed"⟩

/-- Article behind a second, superseding draft offer. -/
def artB : Article := ⟨"Second article", "https://example.com/b", some 2, "feed"⟩

/-- Additional sample articles with distinct links and titles. -/
def art2 : Article := ⟨"Title two", "https://example.com/2", some 4, "feed"⟩

/-- See `art2`. -/
def art3 : Article := ⟨"Title three", "https://example.com/3", some 3, "feed"⟩

/-- See `art2`. -/
def art4 : Article := ⟨"Title four", "https://example.com/4", some 2, "feed"⟩

/-- Four distinct fetched articles — one more than a cycle's batch of 3. -/
def arts4 : List Article := [artHello, art2, art3, art4]

/-- A pending-tweets entry holding a single draft. -/
def pdHello : PendingData := ⟨["hello tweet"], artHello⟩

/-- A draft generator that always yields one draft. -/
def genD : Article → List String := fun _ => ["draft"]

/-- RSS network: source `"bad"` always times out, every other source
serves one article. -/
def netF : String → Nat → Except NetError (List Entry) :=
  fun s _ =>
    if s = "bad" then .error .timeout
    else .ok [⟨"Good title", "https://example.com/good", some 7, none⟩]

/-- RSS network serving two entries, one of which has no parsed date. -/
def netBadDate : String → Nat → Except NetError (List Entry) :=
  fun _ _ => .ok [⟨"a", "l1", none, none⟩, ⟨"b", "l2", some 5, none⟩]

/-- RSS network serving two dated entries with distinct titles. -/
def netW : String → Nat → Except NetError (List Entry) :=
  fun _ _ => .ok [⟨"a", "l1", some 3, none⟩, ⟨"b", "l2", some 5, none⟩]

/-- A 300-character niche string. -/
def longNiche : String := String.mk (List.replicate 300 'a')

/-- Newsletter context with no articles and no subject, whose generic
template overflows 280 characters. -/
def ctxLong : NewsletterContext := ⟨"", [], [], longNiche⟩

/-! ## Helper lemmas -/

/-- Anything the per-template gate lets through is within 280 characters. -/
theorem mem_gate280 {t s : String} (h : t ∈ gate280 s) : t.length ≤ 280 := by
  unfold gate280 at h
  split at h
  · rcases List.mem_singleton.mp h with rfl
    assumption
  · cases h

/-- Membership in the three gated templates bounds the length. -/
theorem mem_triple_gate {t : String} {a b c : String}
    (h : t ∈ gate280 a ++ gate280 b ++ gate280 c) : t.length ≤ 280 := by
  rcases List.mem_append.mp h with h | h
  · rcases List.mem_append.mp h with h | h
    · exact mem_gate280 h
    · exact mem_gate280 h
  · exact mem_gate280 h

/-- Length of a Python slice `s[:n]`. -/
theorem strTake_length (s : String) (n : Nat) :
    (strTake s n).length = min n s.length := by
  have h : (strTake s n).length = (s.toList.take n).length := rfl
  rw [h, List.length_take]
  rfl

/-- Boolean list membership agrees with propositional membership. -/
theorem contains_eq_true_iff {l : List String} {a : String} :
    l.contains a = true ↔ a ∈ l := by
  simp

/-- Everything dispatched by one cycle was new relative to the incoming
ledger. -/
theorem dispatched_mem_new (gen : Article → List String)
    (articles : List Article) (sent : List String) {a : Article}
    {ts : List String}
    (h : (a, ts) ∈ (fetch_and_send_news gen (.ok articles) sent).dispatched) :
    a ∈ articles.filter (fun x => !sent.contains x.link) := by
  unfold fetch_and_send_news at h
  dsimp only at h
  split at h
  · simp at h
  · split at h
    · simp at h
    · dsimp only at h
      have h1 := List.mem_of_mem_filter h
      rcases List.mem_map.mp h1 with ⟨a', ha', heq⟩
      injection heq with heq1 heq2
      subst heq1
      exact List.mem_of_mem_take ha'

/-- The articles deduplicated with accumulator `seen` have pairwise
distinct dedup keys, none of which lies in `seen`. -/
theorem dedup_aux_key_nodup (seen : List String) (l : List Article) :
    ((deduplicate_articles_aux seen l).map
        (fun a => py_strip (py_lower a.title))).Nodup ∧
    ∀ t ∈ (deduplicate_articles_aux seen l).map
        (fun a => py_strip (py_lower a.title)), t ∉ seen := by
  induction l generalizing seen with
  | nil => simp [deduplicate_articles_aux]
  | cons a rest ih =>
    unfold deduplicate_articles_aux
    dsimp only
    split
    case isTrue hcond =>
      obtain ⟨ih1, ih2⟩ := ih (py_strip (py_lower a.title) :: seen)
      have hnotseen : py_strip (py_lower a.title) ∉ seen := by
        have h2 := (Bool.and_eq_true _ _).mp hcond |>.2
        simp at h2
        exact h2
      constructor
      · rw [List.map_cons, List.nodup_cons]
        refine ⟨fun hmem => ?_, ih1⟩
        exact (ih2 _ hmem) (List.mem_cons_self _ _)
      · intro t ht
        rw [List.map_cons] at ht
        rcases List.mem_cons.mp ht with rfl | ht
        · exact hnotseen
        · intro hseen
          exact (ih2 _ ht) (List.mem_cons_of_mem _ hseen)
    case isFalse hcond =>
      exact ih seen

/-- A successful Python descending sort is a permutation of its input,
sorted newest first. -/
theorem py_sorted_desc_ok {l s : List Article} (h : py_sorted_desc l = .ok s) :
    s.Perm l ∧ s.Pairwise newer := by
  unfold py_sorted_desc at h
  by_cases hlen : l.length ≤ 1
  · rw [if_pos hlen] at h
    injection h with h
    subst h
    refine ⟨List.Perm.refl _, ?_⟩
    match l, hlen with
    | [], _ => exact List.Pairwise.nil
    | [a], _ => simp
  · rw [if_neg hlen] at h
    by_cases hany : l.any (fun a => a.published_parsed.isNone) = true
    · rw [if_pos hany] at h
      exact Except.noConfusion h
    · rw [if_neg hany] at h
      injection h with h
      subst h
      exact ⟨List.perm_insertionSort newer l, List.sorted_insertionSort newer l⟩

/-! ## Claim C1 -/

/-- Claim C1 (code bug in the source): with no credentials configured,
`post_tweet "hello"` succeeds without a network attempt (the abstract
`{success: true, simulated: true}`), but the owner-facing reply produced
by `button_callback` for that simulated post is the literal
"Tweet posted successfully!" message — character-for-character identical
to the reply for a genuinely posted tweet — while the
"Tweet simulated (no X token provided)" wording is produced exactly when
a credentialed post attempt fails. Callers cannot tell a real post from
a simulated one. -/
theorem C1_simulated_post_reported_as_real :
    poster_none.post_tweet netDead "hello" = ⟨true, false⟩ ∧
    (button_callback poster_none netDead (some pdHello) "t1").1 =
      .posted "hello tweet" ∧
    render_message (button_callback poster_none netDead (some pdHello) "t1").1 =
      render_message (button_callback poster_full net201 (some pdHello) "t1").1 ∧
    (button_callback poster_full net500 (some pdHello) "t1").1 =
      .simulated "hello tweet" := by
  decide

/-! ## Claim C2 -/

/-- Claim C2 is false on the code: after two successive offers to the
owner, pressing the first (superseded) message's "Post 1" button — which
delivers exactly the callback data `"t1"`, the handler receiving no
message identity — is FULFILLED with the second DraftSet's draft, not
EXPIRED. -/
theorem C2_counterexample_first_message_fulfilled :
    button_callback poster_none netDead
        (send_tweet_suggestions
          (send_tweet_suggestions none artA ["draft A"]) artB ["draft B"])
        "t1" = (.posted "draft B", none, true) ∧
    (CallbackResponse.posted "draft B") ≠ CallbackResponse.expired := by
  decide

/-- Claim C2 (amended): a second offer silently overwrites the owner's
single pending slot; any subsequent action resolves against the current
(second) DraftSet only; EXPIRED — the explicit "Tweet data expired"
reply, with no publish call — occurs exactly when the owner has no
pending entry at all. -/
theorem C2_amended_single_slot :
    (∀ pending article tweets,
        send_tweet_suggestions pending article tweets =
          some ⟨tweets, article⟩) ∧
    (∀ poster net data,
        button_callback poster net none data =
          (CallbackResponse.expired, none, false)) ∧
    (∀ poster net pending article tweets data,
        button_callback poster net
            (send_tweet_suggestions pending article tweets) data =
          button_callback poster net (some ⟨tweets, article⟩) data) :=
  ⟨fun _ _ _ => rfl, fun _ _ _ => rfl, fun _ _ _ _ _ _ => rfl⟩

/-! ## Claim C3 -/

/-- Claim C3 is false on the code: a cycle consumes at most 3 items, so
with 4 fresh articles (all generating drafts) the second run on the
identical source output dispatches the fourth article again — one newly
offered item, not zero. -/
theorem C3_counterexample_second_run_dispatches :
    (fetch_and_send_news genD (.ok arts4)
        ((fetch_and_send_news genD (.ok arts4) []).sent_articles)).dispatched =
      [(art4, ["draft"])] ∧
    (fetch_and_send_news genD (.ok arts4)
        ((fetch_and_send_news genD (.ok arts4) []).sent_articles)).dispatched ≠
      [] := by
  decide

/-- Claim C3 (amended): the second identical run dispatches zero items
provided the first run had at most 3 new articles (the per-cycle batch
bound); and unconditionally, an item whose link is already in the
`sent_articles` ledger is never dispatched again. -/
theorem C3_amended_ledger (gen : Article → List String)
    (articles : List Article) (sent : List String) :
    ((articles.filter (fun a => !sent.contains a.link)).length ≤ 3 →
      (fetch_and_send_news gen (.ok articles)
        ((fetch_and_send_news gen (.ok articles) sent).sent_articles)).dispatched =
        []) ∧
    (∀ a ts,
      (a, ts) ∈ (fetch_and_send_news gen (.ok articles) sent).dispatched →
        sent.contains a.link = false) := by
  constructor
  · intro hle
    by_cases hemp : articles.isEmpty = true
    · unfold fetch_and_send_news
      dsimp only
      rw [if_pos hemp]
    · by_cases hnew : (articles.filter (fun a => !sent.contains a.link)).isEmpty = true
      · have hfirst : fetch_and_send_news gen (.ok articles) sent =
            ⟨.no_new_articles, sent, []⟩ := by
          unfold fetch_and_send_news
          dsimp only
          rw [if_neg hemp, if_pos hnew]
        rw [hfirst]
        unfold fetch_and_send_news
        dsimp only
        rw [if_neg hemp, if_pos hnew]
      · -- first run consumed every new article (there were at most 3)
        have htake : (articles.filter (fun a => !sent.contains a.link)).take 3 =
            articles.filter (fun a => !sent.contains a.link) :=
          List.take_of_length_le hle
        have hfirst : fetch_and_send_news gen (.ok articles) sent =
            ⟨.success,
              sent ++ (articles.filter (fun a => !sent.contains a.link)).map
                (fun a => a.link),
              (((articles.filter (fun a => !sent.contains a.link)).map
                  (fun a => (a, gen a))).filter (fun p => !p.2.isEmpty))⟩ := by
          unfold fetch_and_send_news
          dsimp only
          rw [if_neg hemp, if_neg hnew, htake]
        rw [hfirst]
        -- every article's link is now in the ledger
        have hcov : ∀ a ∈ articles,
            (sent ++ (articles.filter (fun x => !sent.contains x.link)).map
              (fun x => x.link)).contains a.link = true := by
          intro a ha
          by_cases hs : sent.contains a.link = true
          · rw [contains_eq_true_iff] at hs ⊢
            exact List.mem_append.mpr (Or.inl hs)
          · have hfalse : sent.contains a.link = false := by
              cases hval : sent.contains a.link
              · rfl
              · exact absurd hval hs
            have hmemf : a ∈ articles.filter (fun x => !sent.contains x.link) :=
              List.mem_filter.mpr ⟨ha, by rw [hfalse]; rfl⟩
            rw [contains_eq_true_iff]
            exact List.mem_append.mpr
              (Or.inr (List.mem_map.mpr ⟨a, hmemf, rfl⟩))
        have hnew2 : (articles.filter (fun a =>
            !(sent ++ (articles.filter (fun x => !sent.contains x.link)).map
              (fun x => x.link)).contains a.link)).isEmpty = true := by
          rw [List.isEmpty_iff, List.filter_eq_nil_iff]
          intro a ha
          rw [hcov a ha]
          simp
        unfold fetch_and_send_news
        dsimp only
        rw [if_neg hemp, if_pos hnew2]
  · intro a ts h
    have := List.of_mem_filter (dispatched_mem_new gen articles sent h)
    simpa using this

/-- Witness for `C3_amended_ledger`: one fresh article (≤ 3 of them), so
the second identical run dispatches nothing, and the article dispatched
by the first run was not in the (empty) ledger. -/
theorem C3_amended_ledger_witness :
    (fetch_and_send_news genD (.ok [artHello])
        ((fetch_and_send_news genD (.ok [artHello]) []).sent_articles)).dispatched =
      [] ∧
    ([] : List String).contains artHello.link = false := by
  obtain ⟨h1, h2⟩ := C3_amended_ledger genD [artHello] []
  exact ⟨h1 (by decide), h2 artHello ["draft"] (by decide)⟩

/-! ## Claim C4 -/

/-- Claim C4 is false on the code for the newsletter generator: a filled
template of 338 characters is not discarded — it is emitted truncated to
277 characters plus `"..."` (total length 280). -/
theorem C4_counterexample_newsletter_truncation :
    280 < (newsletter_template_fill ctxLong).length ∧
    generate_newsletter_fallback ctxLong =
      strTake (newsletter_template_fill ctxLong) 277 ++ "..." ∧
    (generate_newsletter_fallback ctxLong).length = 280 := by
  decide

/-- Claim C4 (amended): every string returned by either fallback
generator is at most 280 characters; the tweet fallback discards
over-length template output, but the newsletter fallback instead emits
it truncated to 277 characters plus an ellipsis. -/
theorem C4_amended_length_bound :
    (∀ headline link t,
      t ∈ generate_fallback_tweets headline link → t.length ≤ 280) ∧
    (∀ ctx, (generate_newsletter_fallback ctx).length ≤ 280) := by
  constructor
  · intro headline link t ht
    unfold generate_fallback_tweets at ht
    exact mem_triple_gate ht
  · intro ctx
    unfold generate_newsletter_fallback
    dsimp only
    split
    · assumption
    · rw [String.length_append, strTake_length]
      have h3 : ("..." : String).length = 3 := rfl
      rw [h3]
      have := Nat.min_le_left 277 (newsletter_template_fill ctx).length
      omega

/-- Witness for `C4_amended_length_bound`: a concrete generated tweet and
a concrete newsletter context stay within 280 characters. -/
theorem C4_amended_length_bound_witness :
    ((generate_fallback_tweets "AI breakthrough" "").getD 0 "").length ≤ 280 ∧
    (generate_newsletter_fallback ⟨"", [], [], "tech"⟩).length ≤ 280 :=
  ⟨C4_amended_length_bound.1 "AI breakthrough" "" _ (by decide),
   C4_amended_length_bound.2 ⟨"", [], [], "tech"⟩⟩

/-! ## Claim C5 -/

/-- Claim C5: with a pending DraftSet, an owner selection whose parsed
index `k = digit - 1` is negative or at least `len(tweets)` never invokes
the Publishing Endpoint (`post_tweet` is not called) and always yields
the explicit "Invalid tweet selection." reply, keeping the entry. -/
theorem C5_out_of_range_selection (poster : XPoster) (net : String → Option Nat)
    (pd : PendingData) (c : Char) (rest : List Char)
    (hc : c.isDigit = true)
    (hk : ((c.toNat - 48 : Int) - 1) < 0 ∨
      (pd.tweets.length : Int) ≤ ((c.toNat - 48 : Int) - 1)) :
    button_callback poster net (some pd) (String.mk ('t' :: c :: rest)) =
      (.invalidSelection, some pd, false) := by
  have hne : String.mk ('t' :: c :: rest) ≠ "skip" := by
    intro hcontra
    have h2 : 't' :: c :: rest = "skip".data := congrArg String.data hcontra
    simp at h2
  have hguard : ¬(0 ≤ ((c.toNat - 48 : Int) - 1) ∧
      ((c.toNat - 48 : Int) - 1) < (pd.tweets.length : Int)) := by
    rcases hk with h | h <;> omega
  unfold button_callback
  dsimp only
  rw [if_neg hne]
  dsimp only [String.toList]
  rw [if_pos rfl, if_pos hc, if_neg hguard]

/-- Witness for `C5_out_of_range_selection`: pressing "t5" with only one
pending draft. -/
theorem C5_out_of_range_selection_witness :
    button_callback poster_none netDead (some pdHello)
        (String.mk ['t', '5']) = (.invalidSelection, some pdHello, false) :=
  C5_out_of_range_selection poster_none netDead pdHello '5' []
    (by decide) (Or.inr (by decide))

/-! ## Claim C6 -/

/-- Claim C6: a source that throws on every attempt contributes nothing
and changes nothing — the fetch cycle's result over the remaining
sources is identical — and the failing source is tried at most twice
(exactly twice when its failures are the retryable
`Timeout`/`ConnectionError` kind) before being given up for the cycle.
No exception propagates: `fetch_from_source` is total. -/
theorem C6_source_failure_isolated (cutoff : Nat)
    (net : String → Nat → Except NetError (List Entry)) (src : String)
    (l1 l2 : List String)
    (hfail : ∀ n, ∃ e, net src n = .error e) :
    fetch_latest_articles cutoff net (l1 ++ src :: l2) =
      fetch_latest_articles cutoff net (l1 ++ l2) ∧
    (fetch_from_source cutoff net src).1 = [] ∧
    (fetch_from_source cutoff net src).2 ≤ 2 ∧
    ((∀ n e, net src n = .error e → e.retryable = true) →
      (fetch_from_source cutoff net src).2 = 2) := by
  obtain ⟨e0, h0⟩ := hfail 0
  obtain ⟨e1, h1⟩ := hfail 1
  have hsrc : fetch_from_source cutoff net src =
      ([], if e0.retryable then 2 else 1) := by
    unfold fetch_from_source
    rw [h0]
    cases he : e0.retryable
    · simp [he]
    · simp [he, h1]
  have hcontrib : (fetch_from_source cutoff net src).1 = [] := by
    rw [hsrc]
  refine ⟨?_, hcontrib, ?_, ?_⟩
  · have hXY : ((l1 ++ src :: l2).map
        (fun s => (fetch_from_source cutoff net s).1)).flatten =
        ((l1 ++ l2).map (fun s => (fetch_from_source cutoff net s).1)).flatten := by
      simp [hcontrib]
    unfold fetch_latest_articles
    rw [hXY]
  · rw [hsrc]
    cases e0.retryable <;> simp
  · intro hretry
    rw [hsrc, if_pos (hretry 0 e0 h0)]

/-- Witness for `C6_source_failure_isolated`: with sources
`["good", "bad"]` where `"bad"` always times out, the cycle result equals
the one for `["good"]` alone, and `"bad"` was tried exactly twice. -/
theorem C6_source_failure_isolated_witness :
    fetch_latest_articles 0 netF (["good"] ++ "bad" :: []) =
      fetch_latest_articles 0 netF (["good"] ++ []) ∧
    (fetch_from_source 0 netF "bad").1 = [] ∧
    (fetch_from_source 0 netF "bad").2 ≤ 2 ∧
    ((∀ n e, netF "bad" n = .error e → e.retryable = true) →
      (fetch_from_source 0 netF "bad").2 = 2) :=
  C6_source_failure_isolated 0 netF "bad" ["good"] []
    (fun _ => ⟨.timeout, rfl⟩)

/-! ## Claim C7 -/

/-- Claim C7 is false on the code: the manual `/latest` handler carries
no run-lock and no notion of an in-flight cycle — its behaviour is a
pure function of the fetch outcome and the ledger. At a concrete input
the manual request immediately runs a full cycle (dispatching an item)
and reports the success message; its reply never contains
"already running". -/
theorem C7_counterexample_manual_runs_cycle :
    (latest_command genD (.ok [artHello]) []).2.dispatched =
      [(artHello, ["draft"])] ∧
    (latest_command genD (.ok [artHello]) []).1 = latest_feedback .success ∧
    strContains (latest_command genD (.ok [artHello]) []).1
      "already running" = false := by
  decide

/-- Claim C7 (amended): a manual fetch request unconditionally runs one
fetch-transform-dispatch cycle — `latest_command` is exactly
`fetch_and_send_news` plus a feedback message — and the only four
possible feedback messages are the no-articles / no-new-articles /
success / error texts, none of which reports an already-running cycle.
No run-lock exists, so overlapping cycles are not prevented. -/
theorem C7_amended_no_run_lock :
    (∀ gen fetchResult sent,
        latest_command gen fetchResult sent =
          (latest_feedback (fetch_and_send_news gen fetchResult sent).status,
            fetch_and_send_news gen fetchResult sent)) ∧
    ([FetchStatus.no_articles, FetchStatus.no_new_articles,
        FetchStatus.success, FetchStatus.error].all
      (fun st => !strContains (latest_feedback st) "already running")) =
      true :=
  ⟨fun _ _ _ => rfl, by decide⟩

/-! ## Claim C8 -/

/-- Claim C8 is false on the code: calling `stop` a second time, after
the runtime is already stopped, re-issues the entire teardown sequence
(`updater.stop`, `application.stop`, `application.shutdown`) — it is not
a no-op. (Whether those repeated calls raise is up to the messaging
library; the handler itself has no guard.) -/
theorem C8_counterexample_second_stop_not_noop :
    (BaseBot_stop (BaseBot_stop ⟨true, true⟩).1).2 =
      [StopEffect.updaterStop, StopEffect.applicationStop,
        StopEffect.applicationShutdown] ∧
    (BaseBot_stop (BaseBot_stop ⟨true, true⟩).1).2 ≠ [] := by
  decide

/-- Claim C8 (amended): `stop` clears the running flag, but it is not
guarded by it — every call, including a second one on an
already-stopped bot, issues the same nonempty teardown sequence. -/
theorem C8_amended_stop_unguarded (st : StopState) :
    (BaseBot_stop st).1.running = false ∧
    (BaseBot_stop (BaseBot_stop st).1).2 = (BaseBot_stop st).2 ∧
    (BaseBot_stop st).2 ≠ [] := by
  refine ⟨rfl, rfl, ?_⟩
  cases h : st.hasUpdater <;> simp [BaseBot_stop, h]

/-! ## Claim C9 -/

/-- Claim C9: for empty text or text longer than 280 characters,
`post_tweet` returns `False` without attempting any network post,
whatever the credentials. -/
theorem C9_input_guard (p : XPoster) (net : String → Option Nat)
    (text : String) (h : text = "" ∨ 280 < text.length) :
    p.post_tweet net text = ⟨false, false⟩ := by
  unfold XPoster.post_tweet
  rw [if_pos h]

/-- Witness for `C9_input_guard`: the empty tweet with no credentials,
and a 281-character tweet with full credentials. -/
theorem C9_input_guard_witness :
    poster_none.post_tweet netDead "" = ⟨false, false⟩ ∧
    poster_full.post_tweet net201 (String.mk (List.replicate 281 'x')) =
      ⟨false, false⟩ :=
  ⟨C9_input_guard poster_none netDead "" (Or.inl rfl),
   C9_input_guard poster_full net201 _ (Or.inr (by decide))⟩

/-! ## Claim C10 -/

/-- Claim C10 is false on the code as universally stated: when two
articles with distinct titles survive deduplication and one of them has
no parsed publication date, Python's `sorted` compares its `None` key
and raises `TypeError`, so `fetch_latest_articles` returns no article
list at all. -/
theorem C10_counterexample_missing_date_typeerror :
    fetch_latest_articles 0 netBadDate ["s"] = .error "TypeError" ∧
    ∀ arts : List Article,
      fetch_latest_articles 0 netBadDate ["s"] ≠ .ok arts := by
  refine ⟨rfl, fun arts h => ?_⟩
  rw [show fetch_latest_articles 0 netBadDate ["s"] = .error "TypeError"
    from rfl] at h
  exact Except.noConfusion h

/-- Claim C10 (amended): whenever `fetch_latest_articles` does return a
list (in particular whenever every surviving article carries a parsed
date, or fewer than two survive), that list has at most 10 articles,
pairwise-distinct lowercased-and-stripped titles, and is sorted by
parsed publication time, newest first. -/
theorem C10_amended_cap_dedup_sorted (cutoff : Nat)
    (net : String → Nat → Except NetError (List Entry))
    (sources : List String) (arts : List Article)
    (h : fetch_latest_articles cutoff net sources = .ok arts) :
    arts.length ≤ 10 ∧
    (arts.map (fun a => py_strip (py_lower a.title))).Nodup ∧
    arts.Pairwise newer := by
  unfold fetch_latest_articles at h
  dsimp only at h
  cases hs : py_sorted_desc (deduplicate_articles
      ((sources.map (fun s => (fetch_from_source cutoff net s).1)).flatten)) with
  | error e =>
    rw [hs] at h
    simp [Except.map] at h
  | ok sorted =>
    rw [hs] at h
    simp only [Except.map, Except.ok.injEq] at h
    subst h
    obtain ⟨hperm, hsorted⟩ := py_sorted_desc_ok hs
    refine ⟨List.length_take_le 10 sorted, ?_, ?_⟩
    · have h1 : ((deduplicate_articles
          ((sources.map (fun s => (fetch_from_source cutoff net s).1)).flatten)).map
            (fun a => py_strip (py_lower a.title))).Nodup :=
        (dedup_aux_key_nodup [] _).1
      have h2 : (sorted.map (fun a => py_strip (py_lower a.title))).Nodup :=
        ((hperm.map _).nodup_iff).mpr h1
      rw [List.map_take]
      exact List.Nodup.sublist (List.take_sublist 10 _) h2
    · exact List.Pairwise.sublist (List.take_sublist 10 sorted) hsorted

/-- Witness for `C10_amended_cap_dedup_sorted`: a feed serving two dated
entries yields a 2-element, distinct-titled, newest-first result. -/
theorem C10_amended_cap_dedup_sorted_witness :
    ([⟨"b", "l2", some 5, "s"⟩, ⟨"a", "l1", some 3, "s"⟩] :
        List Article).length ≤ 10 ∧
    (([⟨"b", "l2", some 5, "s"⟩, ⟨"a", "l1", some 3, "s"⟩] :
        List Article).map (fun a => py_strip (py_lower a.title))).Nodup ∧
    ([⟨"b", "l2", some 5, "s"⟩, ⟨"a", "l1", some 3, "s"⟩] :
        List Article).Pairwise newer :=
  C10_amended_cap_dedup_sorted 0 netW ["s"] _ rfl
